import Mathlib

/-!
Verification of the scroll-driven choreography and firefly swarm engine.

The definitions below are shallow embeddings of the JavaScript source:
scroll progress values are modelled as rationals (the source only
compares them against literal thresholds), while spatial quantities
(positions, velocities, rotations, accumulated time) are real numbers
and the trigonometric wander terms use Real.sin and Real.cos.
-/

/-- A three component vector, standing in for THREE.Vector3 and for the
(x, y, z) triples stored in the flat Float32Array buffers. -/
structure Vec3 where
  x : ℝ
  y : ℝ
  z : ℝ

/-- Boundary wrapping for the horizontal axes of the 50 particle system
(fireflies.js, update): if the coordinate exceeds 10 it is set to -10,
then if it is below -10 it is set to 10, exactly mirroring the two
sequential if statements of the source. -/
noncomputable def wrapX (x : ℝ) : ℝ :=
  let x1 := if 10 < x then (-10 : ℝ) else x
  if x1 < -10 then (10 : ℝ) else x1

/-- Vertical boundary handling of the 50 particle system
(fireflies.js, update): below 1 the particle is reseeded to 8, above 9
it is reseeded to 1, again as two sequential if statements. -/
noncomputable def wrapY (y : ℝ) : ℝ :=
  let y1 := if y < 1 then (8 : ℝ) else y
  if 9 < y1 then (1 : ℝ) else y1

/-- One particle of the 50 particle update of fireflies.js: position
gains the velocity plus the floating sin and cos offsets built from
the particle phase and the accumulated time (taken after the fixed
0.016 increment at the top of update), then each axis is wrapped. -/
noncomputable def fireflyStep (t phase : ℝ) (pos vel : Vec3) : Vec3 :=
  let ph := phase + t * 0.5
  { x := wrapX (pos.x + vel.x + Real.cos (ph * 0.7) * 0.002)
    y := wrapY (pos.y + vel.y + Real.sin ph * 0.003)
    z := wrapX (pos.z + vel.z + Real.sin (ph * 0.3) * 0.002) }

/-- One particle of the 200 particle update of
professional/FirefliesSystem.js: position gains velocity plus sine
wave offsets; afterwards each velocity component is negated when the
new position is outside the box (x and z beyond 20 in absolute value,
y below 1 or above 16).  The position itself is never moved back.
Returns the new (position, velocity) pair. -/
noncomputable def proFireflyStep (t phase : ℝ) (pos vel : Vec3) : Vec3 × Vec3 :=
  let px := pos.x + vel.x + Real.sin (t + phase) * 0.01
  let py := pos.y + vel.y + Real.cos (t * 0.7 + phase) * 0.005
  let pz := pos.z + vel.z + Real.sin (t * 0.8 + phase) * 0.01
  let vx := if 20 < |px| then -vel.x else vel.x
  let vy := if py < 1 ∨ 16 < py then -vel.y else vel.y
  let vz := if 20 < |pz| then -vel.z else vel.z
  (⟨px, py, pz⟩, ⟨vx, vy, vz⟩)

/-- The speed factor of FirefliesSystem (this.speed, set to 0.5 in the
constructor and never changed). -/
noncomputable def proSpeed : ℝ := 0.5

/-- FirefliesSystem.update(deltaTime) for one particle: the
accumulated time first grows by deltaTime * speed and the grown time
feeds the wander terms of the step; the result carries the new time
and the particle result of proFireflyStep. -/
noncomputable def proUpdate (dt time phase : ℝ) (pos vel : Vec3) : ℝ × Vec3 × Vec3 :=
  let t := time + dt * proSpeed
  (t, proFireflyStep t phase pos vel)

/-- Per axis velocity clamp of fireflies.js attractToPoint:
Math.max(-0.05, Math.min(0.05, v)). -/
noncomputable def clampVel (v : ℝ) : ℝ := max (-0.05) (min 0.05 v)

/-- fireflies.js attractToPoint for one particle: the velocity gains
(target - position) * strength on each axis and is then clamped per
axis to [-0.05, 0.05]. -/
noncomputable def attractToPoint (target : Vec3) (strength : ℝ) (pos vel : Vec3) : Vec3 :=
  { x := clampVel (vel.x + (target.x - pos.x) * strength)
    y := clampVel (vel.y + (target.y - pos.y) * strength)
    z := clampVel (vel.z + (target.z - pos.z) * strength) }

/-- One firefly of the 50 particle system: a slot of the parallel
positions, velocities and phases arrays of FireflySystem. -/
structure Firefly where
  pos : Vec3
  vel : Vec3
  phase : ℝ

/-- The mutable state of FireflySystem that the scroll handler and the
per frame update touch: the particle buffer, the shared material size
and opacity, and the accumulated time. -/
structure SwarmState where
  fireflies : List Firefly
  matSize : ℝ
  matOpacity : ℝ
  time : ℝ

/-- The attraction target (2, 0, -3) hard coded in the middle branch
of fireflies.js setScrollProgress. -/
noncomputable def attractTarget : Vec3 := ⟨2, 0, -3⟩

/-- fireflies.js setScrollProgress(progress): three branches on the
raw progress value.  Below 0.3 and from 0.6 upwards only the material
size and opacity are written (from the current accumulated time); for
0.3 <= progress < 0.6 every particle velocity additionally gains the
attraction toward (2, 0, -3) with strength 0.001. -/
noncomputable def setScrollProgress (p : ℚ) (s : SwarmState) : SwarmState :=
  if p < 0.3 then
    { s with matSize := 0.8 + Real.sin (s.time * 3) * 0.2
             matOpacity := 0.8 + Real.sin (s.time * 2) * 0.2 }
  else if p < 0.6 then
    { s with fireflies := s.fireflies.map (fun f =>
               { f with vel := attractToPoint attractTarget 0.001 f.pos f.vel })
             matSize := 1.0
             matOpacity := 0.9 }
  else
    { s with matSize := 1.2 + Real.sin (s.time * 4) * 0.3
             matOpacity := 1.0 }

/-- The pulsing opacity written by every FireflySystem.update call:
0.3 + 0.4 * sin(time * 2). -/
noncomputable def pulseOpacity (t : ℝ) : ℝ := 0.3 + 0.4 * Real.sin (t * 2)

/-- FireflySystem.update: the accumulated time grows by the fixed
0.016 step, every particle is advanced by fireflyStep, velocities may
be resampled by the occasional random direction change (supplied here
as an oracle from particle index to an optional new velocity), and the
material opacity is overwritten with the pulse value. -/
noncomputable def fireflyUpdate (resample : ℕ → Option Vec3) (s : SwarmState) : SwarmState :=
  let t := s.time + 0.016
  { fireflies := s.fireflies.mapIdx (fun i f =>
      { pos := fireflyStep t f.phase f.pos f.vel
        vel := (resample i).getD f.vel
        phase := f.phase })
    matSize := s.matSize
    matOpacity := pulseOpacity t
    time := t }

/-- FirefliesSystem.updateIntensity: the glow intensity computed from
scroll progress, Math.max(0.2, 1 - progress * 0.8). -/
def updateIntensity (p : ℚ) : ℚ := max 0.2 (1 - p * 0.8)

/-- The scene fields written by ScrollAnimations.updateScene of the
professional pipeline: the firefly glow intensity and material
opacity (both set by updateIntensity), the fog parameters (guarded by
the presence of fog on the scene), and the flower visibility and
scale written by AssetManager.updateVisibility. -/
structure SceneState where
  glowIntensity : ℚ
  fireflyOpacity : ℚ
  hasFog : Bool
  fogNear : ℚ
  fogFar : ℚ
  flowerVisible : Bool
  flowerScale : ℚ

/-- professional/ScrollAnimations.js updateScene(progress): first the
firefly intensity update (glow uniform and material opacity), then the
asset visibility update (flower always visible at scale 2.5), then,
when the scene has fog, near = 50 - progress * 30 and
far = 200 - progress * 50.  No clamping of progress anywhere. -/
def updateScene (p : ℚ) (s : SceneState) : SceneState :=
  let s1 := { s with glowIntensity := updateIntensity p
                     fireflyOpacity := updateIntensity p }
  let s2 := { s1 with flowerVisible := true, flowerScale := 2.5 }
  if s2.hasFog then
    { s2 with fogNear := 50 - p * 30, fogFar := 200 - p * 50 }
  else s2

/-- The model state touched by animations.js updateModelVisibility:
forest visibility, the orange and logo visibility flags and their
rotations. -/
structure ModelState where
  forestVisible : Bool
  orangeVisible : Bool
  orangeRotY : ℝ
  logoVisible : Bool
  logoRotY : ℝ
  logoRotX : ℝ

/-- animations.js updateModelVisibility(progress): the forest is
visible while progress < 0.8; a visible orange gains 0.01 of y
rotation on every call; a visible logo gains 0.02 of y rotation and
its x rotation is set from the wall clock (Date.now() * 0.001, passed
in here as the parameter now). -/
noncomputable def updateModelVisibility (p : ℚ) (now : ℝ) (s : ModelState) : ModelState :=
  let s1 := { s with forestVisible := decide (p < 0.8) }
  let s2 := if s1.orangeVisible then
              { s1 with orangeRotY := s1.orangeRotY + 0.01 }
            else s1
  if s2.logoVisible then
    { s2 with logoRotY := s2.logoRotY + 0.02
              logoRotX := Real.sin (now * 0.001) * 0.1 }
  else s2

/-- The combined state advanced by animations.js
handleScrollProgress: the firefly swarm and the model transforms.
adjustLighting only computes local values and writes nothing, so it
contributes no state. -/
structure AppState where
  swarm : SwarmState
  models : ModelState

/-- animations.js handleScrollProgress(progress): forwards the raw
progress to the firefly scroll handler and to the model visibility
update. -/
noncomputable def handleScrollProgress (p : ℚ) (now : ℝ) (s : AppState) : AppState :=
  { swarm := setScrollProgress p s.swarm
    models := updateModelVisibility p now s.models }

/-- Events observed by the GSAP scroll trigger of
professional/ScrollAnimations.js: a progress update (onUpdate with
self.progress) or scroll completion (onComplete). -/
inductive ScrollEvent
  | update : ℚ → ScrollEvent
  | complete : ScrollEvent

/-- The trigger bookkeeping of ScrollAnimations: the videoTriggered
flag and a count of how many times redirectToVideoPage was emitted
(the count is a ghost variable for the exactly once property). -/
structure TriggerState where
  videoTriggered : Bool
  redirects : ℕ

/-- Whether an event satisfies the firing condition of one of the two
detection paths: a progress update at or beyond the 0.95 threshold, or
scroll completion (which fires unconditionally when still unfired). -/
def reachesThreshold : ScrollEvent → Bool
  | ScrollEvent.update p => decide ((0.95 : ℚ) ≤ p)
  | ScrollEvent.complete => true

/-- The trigger logic of the onUpdate and onComplete callbacks of
setupScrollAnimation: onUpdate fires the redirect when progress has
reached 0.95 and videoTriggered is still false, setting the flag
first; onComplete fires it when the flag is still false. -/
def handleEvent (s : TriggerState) : ScrollEvent → TriggerState
  | ScrollEvent.update p =>
      if (0.95 : ℚ) ≤ p ∧ s.videoTriggered = false then
        { videoTriggered := true, redirects := s.redirects + 1 }
      else s
  | ScrollEvent.complete =>
      if s.videoTriggered = false then
        { videoTriggered := true, redirects := s.redirects + 1 }
      else s

/-- The trigger state at scene start: flag down, nothing emitted. -/
def initialTrigger : TriggerState := ⟨false, 0⟩

/-- Folding a whole sequence of scroll events through the trigger
logic, starting from the fresh scene state. -/
def runScroll (es : List ScrollEvent) : TriggerState :=
  es.foldl handleEvent initialTrigger

/-- A sample swarm with a single particle at the origin with zero
velocity and phase, used to instantiate the universally quantified
theorems at a concrete input. -/
noncomputable def sampleSwarm : SwarmState :=
  { fireflies := [{ pos := ⟨0, 0, 0⟩, vel := ⟨0, 0, 0⟩, phase := 0 }]
    matSize := 0.8
    matOpacity := 0.8
    time := 0 }

/-- A sample scene with fog, matching the initial fog of
SceneManager (near 20, far 80). -/
def sampleScene : SceneState :=
  { glowIntensity := 1
    fireflyOpacity := 1
    hasFog := true
    fogNear := 20
    fogFar := 80
    flowerVisible := true
    flowerScale := 2.5 }

/-- A sample model state with the orange visible and all rotations at
zero, as after showOrange has revealed the orange model. -/
noncomputable def sampleModels : ModelState :=
  { forestVisible := true
    orangeVisible := true
    orangeRotY := 0
    logoVisible := false
    logoRotY := 0
    logoRotX := 0 }

/-- A sample combined application state. -/
noncomputable def sampleApp : AppState :=
  { swarm := sampleSwarm, models := sampleModels }

lemma wrapX_mem (x : ℝ) : -10 ≤ wrapX x ∧ wrapX x ≤ 10 := by
  simp only [wrapX]
  split_ifs with h1 h2 h3
  · norm_num
  · norm_num
  · norm_num
  · exact ⟨le_of_not_lt h3, le_of_not_lt h1⟩

lemma wrapY_mem (y : ℝ) : 1 ≤ wrapY y ∧ wrapY y ≤ 9 := by
  simp only [wrapY]
  split_ifs with h1 h2 h3
  · norm_num
  · norm_num
  · norm_num
  · exact ⟨le_of_not_lt h1, le_of_not_lt h3⟩

lemma clampVel_mem (v : ℝ) : -0.05 ≤ clampVel v ∧ clampVel v ≤ 0.05 := by
  refine ⟨le_max_left _ _, max_le (by norm_num) ?_⟩
  exact min_le_left _ _

lemma clampVel_eq_self (v : ℝ) (h1 : -0.05 ≤ v) (h2 : v ≤ 0.05) : clampVel v = v := by
  simp only [clampVel]
  rw [min_eq_right h2, max_eq_right h1]

lemma handleEvent_videoTriggered (s : TriggerState) (e : ScrollEvent) :
    (handleEvent s e).videoTriggered = (s.videoTriggered || reachesThreshold e) := by
  cases e with
  | update p =>
      by_cases hp : (0.95 : ℚ) ≤ p <;>
        cases hs : s.videoTriggered <;>
          simp [handleEvent, reachesThreshold, hp, hs]
  | complete =>
      cases hs : s.videoTriggered <;> simp [handleEvent, reachesThreshold, hs]

lemma handleEvent_redirects (s : TriggerState) (e : ScrollEvent) :
    (handleEvent s e).redirects =
      if s.videoTriggered = false ∧ reachesThreshold e = true
      then s.redirects + 1 else s.redirects := by
  cases e with
  | update p =>
      by_cases hp : (0.95 : ℚ) ≤ p <;>
        cases hs : s.videoTriggered <;>
          simp [handleEvent, reachesThreshold, hp, hs]
  | complete =>
      cases hs : s.videoTriggered <;> simp [handleEvent, reachesThreshold, hs]

lemma foldl_videoTriggered (es : List ScrollEvent) (s : TriggerState) :
    (es.foldl handleEvent s).videoTriggered
      = (s.videoTriggered || es.any reachesThreshold) := by
  induction es generalizing s with
  | nil => simp
  | cons e es ih =>
      simp only [List.foldl_cons, List.any_cons]
      rw [ih, handleEvent_videoTriggered, Bool.or_assoc]

lemma foldl_redirects (es : List ScrollEvent) (s : TriggerState)
    (h : s.redirects = if s.videoTriggered = true then 1 else 0) :
    (es.foldl handleEvent s).redirects
      = if (es.foldl handleEvent s).videoTriggered = true then 1 else 0 := by
  induction es generalizing s with
  | nil => simpa using h
  | cons e es ih =>
      simp only [List.foldl_cons]
      apply ih
      rw [handleEvent_redirects, handleEvent_videoTriggered]
      cases hs : s.videoTriggered with
      | true => simpa [hs] using h
      | false =>
          cases ht : reachesThreshold e <;> simp [hs, ht] <;> simpa [hs] using h

/-- Claim C1: across any sequence of scroll events the
redirect-to-video side effect fires at most once, and as soon as the
sequence contains a progress update reaching the 0.95 threshold (or a
completion event, the second detection path) it fires exactly once;
the update path and the completion path never double fire because both
are guarded by the shared videoTriggered flag. -/
theorem video_trigger_exactly_once :
    (∀ es : List ScrollEvent, (runScroll es).redirects ≤ 1) ∧
    (∀ es : List ScrollEvent, (∃ e ∈ es, reachesThreshold e = true) →
      (runScroll es).redirects = 1) := by
  have hbase : initialTrigger.redirects
      = if initialTrigger.videoTriggered = true then 1 else 0 := by
    simp [initialTrigger]
  constructor
  · intro es
    rw [runScroll, foldl_redirects es initialTrigger hbase]
    split_ifs <;> norm_num
  · rintro es ⟨e, he, hth⟩
    rw [runScroll, foldl_redirects es initialTrigger hbase, foldl_videoTriggered]
    have hany : es.any reachesThreshold = true := by
      rw [List.any_eq_true]
      exact ⟨e, he, hth⟩
    simp [initialTrigger, hany]

/-- Witness for C1 at the concrete event sequence of one update at
progress 0.96 followed by a completion event: the threshold is
reached and exactly one redirect is emitted. -/
theorem video_trigger_exactly_once_witness :
    (∃ e ∈ [ScrollEvent.update 0.96, ScrollEvent.complete],
        reachesThreshold e = true) ∧
    (runScroll [ScrollEvent.update 0.96, ScrollEvent.complete]).redirects = 1 :=
  ⟨⟨ScrollEvent.update 0.96, List.mem_cons_self _ _,
      by norm_num [reachesThreshold]⟩,
   video_trigger_exactly_once.2 _
     ⟨ScrollEvent.update 0.96, List.mem_cons_self _ _,
      by norm_num [reachesThreshold]⟩⟩

/-- Counterexample to claim C2: in the 200 particle system a particle
that starts at y = 16.9 (the constructor seeds y anywhere in [2, 17])
with zero velocity is still above the claimed bound 16 after the first
update and also after a second update: the update only negates the
velocity and never moves the position back inside the box, so the
crossing is not resolved during the same update and the particle stays
out of bounds for more than one frame. -/
theorem pro_position_escapes_bounds :
    16 < ((proFireflyStep 0.016 0 ⟨0, 16.9, 0⟩ ⟨0, 0, 0⟩).1).y ∧
    16 < ((proFireflyStep 0.032 0
            (proFireflyStep 0.016 0 ⟨0, 16.9, 0⟩ ⟨0, 0, 0⟩).1
            (proFireflyStep 0.016 0 ⟨0, 16.9, 0⟩ ⟨0, 0, 0⟩).2).1).y := by
  have h1 := Real.neg_one_le_cos (0.016 * 0.7 + 0)
  have h2 := Real.neg_one_le_cos (0.032 * 0.7 + 0)
  constructor
  · simp only [proFireflyStep]
    nlinarith
  · simp only [proFireflyStep, neg_zero, ite_self]
    nlinarith

/-- Amended claim C2: in the 50 particle system (fireflies.js) the
invariant does hold: after every per particle update the x and z
components are in [-10, 10] and the y component is in [1, 9], the
wrap and reseed happening inside the same update. -/
theorem firefly_position_within_bounds :
    ∀ (t phase : ℝ) (pos vel : Vec3),
      -10 ≤ (fireflyStep t phase pos vel).x ∧ (fireflyStep t phase pos vel).x ≤ 10 ∧
      1 ≤ (fireflyStep t phase pos vel).y ∧ (fireflyStep t phase pos vel).y ≤ 9 ∧
      -10 ≤ (fireflyStep t phase pos vel).z ∧ (fireflyStep t phase pos vel).z ≤ 10 := by
  intro t phase pos vel
  simp only [fireflyStep]
  exact ⟨(wrapX_mem _).1, (wrapX_mem _).2, (wrapY_mem _).1, (wrapY_mem _).2,
         (wrapX_mem _).1, (wrapX_mem _).2⟩

/-- Counterexample to claim C3: the scroll progress handler is not
idempotent.  With the orange model visible, calling the handler a
second time with the same progress 0.5 adds another 0.01 to the
orange y rotation, so the rotation after two calls differs from the
rotation after one call. -/
theorem handler_not_idempotent :
    (handleScrollProgress 0.5 0 (handleScrollProgress 0.5 0 sampleApp)).models.orangeRotY
      ≠ (handleScrollProgress 0.5 0 sampleApp).models.orangeRotY := by
  norm_num [handleScrollProgress, updateModelVisibility, sampleApp, sampleModels]

/-- Amended claim C3: repeated identical input is idempotent for the
scene state handler of the professional pipeline (fog parameters,
glow intensity, flower visibility) and for the swarm scroll handler
outside the attraction range; but a visible orange or logo model
gains a fixed rotation delta on every call, and during the
attraction phase particle velocities gain the attraction increment on
every call, so the full handler is not idempotent on those. -/
theorem scene_handlers_idempotent :
    (∀ (p : ℚ) (s : SceneState), updateScene p (updateScene p s) = updateScene p s) ∧
    (∀ (p : ℚ) (s : SwarmState), (p < 0.3 ∨ 0.6 ≤ p) →
      setScrollProgress p (setScrollProgress p s) = setScrollProgress p s) := by
  constructor
  · intro p s
    by_cases h : s.hasFog = true <;> simp [updateScene, h]
  · rintro p s (hp | hp)
    · simp [setScrollProgress, hp]
    · have h3 : ¬ p < 0.3 := by linarith
      have h6 : ¬ p < 0.6 := by linarith
      simp [setScrollProgress, h3, h6]

/-- Witness for the amended C3 at progress 0.7 and the sample swarm:
0.7 lies outside the attraction range and the second identical call
leaves the state unchanged. -/
theorem scene_handlers_idempotent_witness :
    ((0.7 : ℚ) < 0.3 ∨ (0.6 : ℚ) ≤ 0.7) ∧
    setScrollProgress 0.7 (setScrollProgress 0.7 sampleSwarm)
      = setScrollProgress 0.7 sampleSwarm :=
  ⟨Or.inr (by norm_num),
   scene_handlers_idempotent.2 0.7 sampleSwarm (Or.inr (by norm_num))⟩

/-- Counterexample to claim C4: the positional contribution of
velocity in one update of the 200 particle system is not proportional
to the supplied frame delta.  With velocity (1, 0, 0) and dt = 2 the
new x position gains exactly 1, not velocity times dt = 2, beyond the
wander offset. -/
theorem velocity_step_not_dt_scaled :
    ((proUpdate 2 0 0 ⟨0, 0, 0⟩ ⟨1, 0, 0⟩).2.1).x
      ≠ 0 + 1 * 2 + Real.sin ((0 : ℝ) + 2 * proSpeed + 0) * 0.01 := by
  simp only [proUpdate, proFireflyStep, proSpeed]
  intro hEq
  norm_num at hEq

/-- Amended claim C4: one update adds the velocity itself to the
position, independent of dt, plus the smooth wandering offset built
from sin and cos of the accumulated time (grown by dt times the speed
factor) plus the particle phase at several frequencies. -/
theorem step_velocity_contribution :
    ∀ (dt time phase : ℝ) (pos vel : Vec3),
      ((proUpdate dt time phase pos vel).2.1).x
        = pos.x + vel.x + Real.sin ((time + dt * proSpeed) + phase) * 0.01 ∧
      ((proUpdate dt time phase pos vel).2.1).y
        = pos.y + vel.y + Real.cos ((time + dt * proSpeed) * 0.7 + phase) * 0.005 ∧
      ((proUpdate dt time phase pos vel).2.1).z
        = pos.z + vel.z + Real.sin ((time + dt * proSpeed) * 0.8 + phase) * 0.01 := by
  intro dt time phase pos vel
  refine ⟨?_, ?_, ?_⟩ <;> simp [proUpdate, proFireflyStep]

/-- Claim C5: attractToPoint first adds strength * (target - position)
to the velocity componentwise and then clamps; after the call every
velocity component lies in [-0.05, 0.05], for every particle, every
call and every initial velocity; and whenever the incremented value is
already within the clamp the result equals the plain increment. -/
theorem attract_increment_then_clamp :
    ∀ (target : Vec3) (strength : ℝ) (pos vel : Vec3),
      (-0.05 ≤ (attractToPoint target strength pos vel).x ∧
        (attractToPoint target strength pos vel).x ≤ 0.05) ∧
      (-0.05 ≤ (attractToPoint target strength pos vel).y ∧
        (attractToPoint target strength pos vel).y ≤ 0.05) ∧
      (-0.05 ≤ (attractToPoint target strength pos vel).z ∧
        (attractToPoint target strength pos vel).z ≤ 0.05) ∧
      (-0.05 ≤ vel.x + (target.x - pos.x) * strength →
        vel.x + (target.x - pos.x) * strength ≤ 0.05 →
        (attractToPoint target strength pos vel).x
          = vel.x + (target.x - pos.x) * strength) := by
  intro target strength pos vel
  refine ⟨?_, ?_, ?_, ?_⟩
  · simpa [attractToPoint] using clampVel_mem (vel.x + (target.x - pos.x) * strength)
  · simpa [attractToPoint] using clampVel_mem (vel.y + (target.y - pos.y) * strength)
  · simpa [attractToPoint] using clampVel_mem (vel.z + (target.z - pos.z) * strength)
  · intro h1 h2
    simp only [attractToPoint]
    exact clampVel_eq_self _ h1 h2

/-- Witness for C5 at the concrete call of the source (target
(2, 0, -3), strength 0.001) on a particle at the origin with zero
velocity: the x increment 0.002 is inside the clamp and the resulting
x velocity equals it. -/
theorem attract_increment_then_clamp_witness :
    (-0.05 ≤ (0 : ℝ) + (attractTarget.x - 0) * 0.001) ∧
    ((0 : ℝ) + (attractTarget.x - 0) * 0.001 ≤ 0.05) ∧
    (attractToPoint attractTarget 0.001 ⟨0, 0, 0⟩ ⟨0, 0, 0⟩).x
      = (0 : ℝ) + (attractTarget.x - 0) * 0.001 := by
  have h1 : -0.05 ≤ (0 : ℝ) + (attractTarget.x - 0) * 0.001 := by
    norm_num [attractTarget]
  have h2 : (0 : ℝ) + (attractTarget.x - 0) * 0.001 ≤ 0.05 := by
    norm_num [attractTarget]
  exact ⟨h1, h2,
    (attract_increment_then_clamp attractTarget 0.001 ⟨0, 0, 0⟩ ⟨0, 0, 0⟩).2.2.2 h1 h2⟩

/-- Claim C6: the force model is selected from the phase containing
the progress value: for 0.3 <= p < 0.6 every particle velocity gains
the point attraction toward (2, 0, -3) with strength 0.001, and for p
outside that range the handler leaves every particle (in particular
every velocity) unchanged. -/
theorem setScrollProgress_force_model :
    ∀ (p : ℚ) (s : SwarmState),
      (0.3 ≤ p → p < 0.6 →
        (setScrollProgress p s).fireflies
          = s.fireflies.map (fun f =>
              { f with vel := attractToPoint attractTarget 0.001 f.pos f.vel })) ∧
      ((p < 0.3 ∨ 0.6 ≤ p) → (setScrollProgress p s).fireflies = s.fireflies) := by
  intro p s
  constructor
  · intro h3 h6
    have hn : ¬ p < 0.3 := not_lt.mpr h3
    simp [setScrollProgress, hn, h6]
  · rintro (hp | hp)
    · simp [setScrollProgress, hp]
    · have h3 : ¬ p < 0.3 := by linarith
      have h6 : ¬ p < 0.6 := by linarith
      simp [setScrollProgress, h3, h6]

/-- Witness for C6 at progress 0.45 (attraction phase) and progress
0.7 (free phase) on the sample swarm. -/
theorem setScrollProgress_force_model_witness :
    ((0.3 : ℚ) ≤ 0.45 ∧ (0.45 : ℚ) < 0.6 ∧
      (setScrollProgress 0.45 sampleSwarm).fireflies
        = sampleSwarm.fireflies.map (fun f =>
            { f with vel := attractToPoint attractTarget 0.001 f.pos f.vel })) ∧
    (((0.7 : ℚ) < 0.3 ∨ (0.6 : ℚ) ≤ 0.7) ∧
      (setScrollProgress 0.7 sampleSwarm).fireflies = sampleSwarm.fireflies) :=
  ⟨⟨by norm_num, by norm_num,
     (setScrollProgress_force_model 0.45 sampleSwarm).1 (by norm_num) (by norm_num)⟩,
   ⟨Or.inr (by norm_num),
     (setScrollProgress_force_model 0.7 sampleSwarm).2 (Or.inr (by norm_num))⟩⟩

/-- Counterexample to claim C7: updateScene does not behave as if the
progress were clamped.  At progress 2 the fog near plane is
50 - 2 * 30 = -10, while at the clamped progress 1 it is 20. -/
theorem updateScene_not_clamped :
    (updateScene 2 sampleScene).fogNear ≠ (updateScene 1 sampleScene).fogNear := by
  norm_num [updateScene, sampleScene]

/-- Amended claim C7: the swarm scroll handler does treat out of range
progress exactly like the clamped value (any p < 0 lands in the same
branch as 0, any p > 1 in the same branch as 1, and the branch result
does not depend on p), and both handlers are total; but updateScene
applies the raw progress linearly to the fog parameters and the glow
intensity, so for out of range progress its result differs from the
result at the clamped value. -/
theorem setScrollProgress_clamps :
    ∀ (p : ℚ) (s : SwarmState),
      (p < 0 → setScrollProgress p s = setScrollProgress 0 s) ∧
      (1 < p → setScrollProgress p s = setScrollProgress 1 s) := by
  intro p s
  constructor
  · intro hp
    have h1 : p < 0.3 := by linarith
    have h2 : (0 : ℚ) < 0.3 := by norm_num
    simp [setScrollProgress, h1, h2]
  · intro hp
    have h1 : ¬ p < 0.3 := by linarith
    have h2 : ¬ p < 0.6 := by linarith
    have h3 : ¬ (1 : ℚ) < 0.3 := by norm_num
    have h4 : ¬ (1 : ℚ) < 0.6 := by norm_num
    simp [setScrollProgress, h1, h2, h3, h4]

/-- Witness for the amended C7 at progress -1 and 2 on the sample
swarm. -/
theorem setScrollProgress_clamps_witness :
    ((-1 : ℚ) < 0 ∧
      setScrollProgress (-1) sampleSwarm = setScrollProgress 0 sampleSwarm) ∧
    ((1 : ℚ) < 2 ∧
      setScrollProgress 2 sampleSwarm = setScrollProgress 1 sampleSwarm) :=
  ⟨⟨by norm_num, (setScrollProgress_clamps (-1) sampleSwarm).1 (by norm_num)⟩,
   ⟨by norm_num, (setScrollProgress_clamps 2 sampleSwarm).2 (by norm_num)⟩⟩

lemma wander_bound (a b w c : ℝ) (hw : |w| ≤ 1) (hc : 0 ≤ c) :
    |a + b + w * c| ≤ |a| + |b| + c := by
  have h1 : |a + b + w * c| ≤ |a + b| + |w * c| := abs_add _ _
  have h2 : |a + b| ≤ |a| + |b| := abs_add _ _
  have h3 : |w * c| ≤ c := by
    rw [abs_mul, abs_of_nonneg hc]
    exact mul_le_of_le_one_left hc hw
  linarith

lemma updateScene_fogNear (p : ℚ) (s : SceneState) (h : s.hasFog = true) :
    (updateScene p s).fogNear = 50 - p * 30 := by
  simp [updateScene, h]

lemma updateScene_fogFar (p : ℚ) (s : SceneState) (h : s.hasFog = true) :
    (updateScene p s).fogFar = 200 - p * 50 := by
  simp [updateScene, h]

lemma updateScene_glow (p : ℚ) (s : SceneState) :
    (updateScene p s).glowIntensity = updateIntensity p := by
  by_cases h : s.hasFog = true <;> simp [updateScene, h]

/-- Claim C8: the per frame handlers are total functions of their
inputs and keep every output in an explicit finite range: for progress
in [0, 1] the fog near plane stays in [20, 50], the far plane in
[150, 200] and the glow intensity in [0.2, 1]; a particle of the 50
particle system always lands in the bounding box; and one update of
the 200 particle system moves each coordinate by at most the velocity
magnitude plus the wander amplitude, for every dt.  No operation
divides, so no division by zero and no undefined value can arise. -/
theorem frame_handlers_total_bounded :
    (∀ (p : ℚ) (s : SceneState), 0 ≤ p → p ≤ 1 → s.hasFog = true →
      20 ≤ (updateScene p s).fogNear ∧ (updateScene p s).fogNear ≤ 50 ∧
      150 ≤ (updateScene p s).fogFar ∧ (updateScene p s).fogFar ≤ 200 ∧
      0.2 ≤ (updateScene p s).glowIntensity ∧ (updateScene p s).glowIntensity ≤ 1) ∧
    (∀ (t phase : ℝ) (pos vel : Vec3),
      |(fireflyStep t phase pos vel).x| ≤ 10 ∧
      |(fireflyStep t phase pos vel).y| ≤ 9 ∧
      |(fireflyStep t phase pos vel).z| ≤ 10) ∧
    (∀ (dt time phase : ℝ) (pos vel : Vec3),
      |((proUpdate dt time phase pos vel).2.1).x| ≤ |pos.x| + |vel.x| + 0.01 ∧
      |((proUpdate dt time phase pos vel).2.1).y| ≤ |pos.y| + |vel.y| + 0.005 ∧
      |((proUpdate dt time phase pos vel).2.1).z| ≤ |pos.z| + |vel.z| + 0.01) := by
  refine ⟨?_, ?_, ?_⟩
  · intro p s h0 h1 hfog
    rw [updateScene_fogNear p s hfog, updateScene_fogFar p s hfog, updateScene_glow]
    refine ⟨by linarith, by linarith, by linarith, by linarith,
            le_max_left _ _, max_le (by norm_num) (by linarith)⟩
  · intro t phase pos vel
    simp only [fireflyStep]
    exact ⟨abs_le.mpr ⟨(wrapX_mem _).1, (wrapX_mem _).2⟩,
           abs_le.mpr ⟨by linarith [(wrapY_mem (pos.y + vel.y +
             Real.sin (phase + t * 0.5) * 0.003)).1], (wrapY_mem _).2⟩,
           abs_le.mpr ⟨(wrapX_mem _).1, (wrapX_mem _).2⟩⟩
  · intro dt time phase pos vel
    simp only [proUpdate, proFireflyStep]
    exact ⟨wander_bound _ _ _ _ (Real.abs_sin_le_one _) (by norm_num),
           wander_bound _ _ _ _ (Real.abs_cos_le_one _) (by norm_num),
           wander_bound _ _ _ _ (Real.abs_sin_le_one _) (by norm_num)⟩

/-- Witness for C8 at progress 0.5 on the sample scene with fog. -/
theorem frame_handlers_total_bounded_witness :
    (0 : ℚ) ≤ 0.5 ∧ (0.5 : ℚ) ≤ 1 ∧ sampleScene.hasFog = true ∧
    20 ≤ (updateScene 0.5 sampleScene).fogNear ∧
    (updateScene 0.5 sampleScene).fogNear ≤ 50 ∧
    150 ≤ (updateScene 0.5 sampleScene).fogFar ∧
    (updateScene 0.5 sampleScene).fogFar ≤ 200 ∧
    0.2 ≤ (updateScene 0.5 sampleScene).glowIntensity ∧
    (updateScene 0.5 sampleScene).glowIntensity ≤ 1 := by
  have h := frame_handlers_total_bounded.1 0.5 sampleScene
    (by norm_num) (by norm_num) rfl
  exact ⟨by norm_num, by norm_num, rfl, h.1, h.2.1, h.2.2.1,
         h.2.2.2.1, h.2.2.2.2.1, h.2.2.2.2.2⟩

/-- Claim C9: the glow intensity is max(0.2, 1 - progress * 0.8); on
[0, 1] it lies in [0.2, 1] and it is monotonically non increasing in
progress everywhere. -/
theorem updateIntensity_range_monotone :
    (∀ p : ℚ, 0 ≤ p → p ≤ 1 →
      0.2 ≤ updateIntensity p ∧ updateIntensity p ≤ 1) ∧
    (∀ p q : ℚ, p ≤ q → updateIntensity q ≤ updateIntensity p) := by
  constructor
  · intro p h0 h1
    exact ⟨le_max_left _ _, max_le (by norm_num) (by linarith)⟩
  · intro p q hpq
    exact max_le_max (le_refl _) (by linarith)

/-- Witness for C9: at progress 0 the intensity is within [0.2, 1],
and moving from progress 0 to progress 1 does not increase it. -/
theorem updateIntensity_range_monotone_witness :
    ((0 : ℚ) ≤ 0 ∧ (0 : ℚ) ≤ 1 ∧
      0.2 ≤ updateIntensity 0 ∧ updateIntensity 0 ≤ 1) ∧
    ((0 : ℚ) ≤ 1 ∧ updateIntensity 1 ≤ updateIntensity 0) :=
  ⟨⟨by norm_num, by norm_num,
     (updateIntensity_range_monotone.1 0 (by norm_num) (by norm_num)).1,
     (updateIntensity_range_monotone.1 0 (by norm_num) (by norm_num)).2⟩,
   ⟨by norm_num, updateIntensity_range_monotone.2 0 1 (by norm_num)⟩⟩

/-- Claim C10: the pulsing opacity written by every swarm update is
0.3 + 0.4 * sin(2 * time); its values stay within [-0.1, 0.7], some
accumulated time values make it negative (for example time equal to
three quarters of pi, where it is exactly -0.1), and every update
overwrites whatever opacity the scroll handler stored before,
regardless of that stored value. -/
theorem pulse_opacity_behaviour :
    (∀ t : ℝ, pulseOpacity t = 0.3 + 0.4 * Real.sin (2 * t)) ∧
    (∀ t : ℝ, -0.1 ≤ pulseOpacity t ∧ pulseOpacity t ≤ 0.7) ∧
    (∃ t : ℝ, pulseOpacity t < 0) ∧
    (∀ (resample : ℕ → Option Vec3) (s : SwarmState) (o : ℝ),
      (fireflyUpdate resample { s with matOpacity := o }).matOpacity
        = pulseOpacity (s.time + 0.016)) := by
  refine ⟨?_, ?_, ?_, ?_⟩
  · intro t
    rw [pulseOpacity, mul_comm t 2]
  · intro t
    have h1 := Real.neg_one_le_sin (t * 2)
    have h2 := Real.sin_le_one (t * 2)
    constructor <;> simp only [pulseOpacity] <;> nlinarith
  · refine ⟨3 * Real.pi / 4, ?_⟩
    have harg : 3 * Real.pi / 4 * 2 = Real.pi + Real.pi / 2 := by ring
    have hsin : Real.sin (3 * Real.pi / 4 * 2) = -1 := by
      rw [harg, Real.sin_add, Real.sin_pi, Real.cos_pi,
          Real.sin_pi_div_two, Real.cos_pi_div_two]
      ring
    simp only [pulseOpacity, hsin]
    norm_num
  · intro resample s o
    simp [fireflyUpdate]
